import Mathlib

/-!
# Verification of the meshgl scene-illumination / exposure core

Shallow embedding of the repository's render controllers:

* `AutoExposureController` (src/scripts/render/AutoExposureController.js)
* `EnvironmentController`  (src/scripts/render/EnvironmentController.js)
* `LightsController`       (src/scripts/render/LightsController.js)
* `PostProcessingPipeline` (src/unnamed/part_000)

JavaScript numbers are idealised as exact rationals (`ℚ`) where the code
only performs field arithmetic, and as reals (`ℝ`) where transcendental
functions (`Math.pow` with fractional exponent, `Math.cos`/`Math.sin`)
appear.  GPU objects (textures, render targets) are modelled as natural
number identifiers handed out by a monotone allocator, with an explicit
list of identifiers that have been `dispose()`d.  Frame side effects
(off-screen renders, pixel readbacks, console logging) are recorded in an
explicit effects record returned next to the updated state.
-/

/-! ## THREE.MathUtils helpers (three.js)
`clamp(value, min, max) = Math.max(min, Math.min(max, value))`
`lerp(x, y, t) = (1 - t) * x + t * y`
`degToRad(d) = d * (Math.PI / 180)` -/

def clampQ (value lo hi : ℚ) : ℚ := max lo (min hi value)

def lerpQ (x y t : ℚ) : ℚ := (1 - t) * x + t * y

def clampR (value lo hi : ℝ) : ℝ := max lo (min hi value)

def lerpR (x y t : ℝ) : ℝ := (1 - t) * x + t * y

noncomputable def degToRad (d : ℚ) : ℝ := (d : ℝ) * (Real.pi / 180)

/-- JavaScript's `%` truncates the quotient toward zero. -/
def ratTrunc (q : ℚ) : ℤ := if 0 ≤ q then ⌊q⌋ else ⌈q⌉

/-- JavaScript remainder `x % y` (sign follows the dividend). -/
def jsMod (x y : ℚ) : ℚ := x - y * (ratTrunc (x / y) : ℚ)

/-- The `((value % 360) + 360) % 360` normalisation used by both
`EnvironmentController.setRotation` and `LightsController.setRotation`. -/
def normalizeDeg (v : ℚ) : ℚ := jsMod (jsMod v 360 + 360) 360

namespace AutoExposureController

/-- One RGBA sample of the 8×8 luminance readback buffer (byte values). -/
structure Pixel where
  r : ℕ
  g : ℕ
  b : ℕ
  a : ℕ
deriving DecidableEq

/-- Outcome of `renderer.readRenderTargetPixels`: either the pixel data or a
thrown error (readback unsupported / failed). -/
inductive ReadOutcome where
  | ok (pixels : List Pixel)
  | err
deriving DecidableEq

/-- Instrumentation of a frame: whether the scene was rendered into the
luminance render target, whether a pixel readback was attempted, and any
console log lines emitted. -/
structure FrameEffects where
  rendered : Bool
  readbackAttempted : Bool
  logs : List String
deriving DecidableEq

def noEffects : FrameEffects := ⟨false, false, []⟩

/-- State of an `AutoExposureController` instance.  The numeric constructor
fields `target = 0.45`, `min = 0.50`, `max = 2.5`, `smooth = 0.12`,
`brightThreshold = 0.65`, `sampleSize = 8` are never mutated and appear as
literals below, exactly as they are assigned in the constructor.
`hasRenderTarget` / `hasRenderer` model the null-checks
`!this.luminanceRenderTarget || !this.renderer`. -/
structure State where
  enabled : Bool
  manualExposure : ℝ
  currentExposure : ℝ
  autoExposureValue : ℝ
  averageLuminance : ℚ
  hasRenderTarget : Bool
  hasRenderer : Bool

/-- Constructor state: `enabled = false`, all exposures `1.0`,
`averageLuminance = 0.5`, luminance render target allocated. -/
def initial : State :=
  { enabled := false
    manualExposure := 1
    currentExposure := 1
    autoExposureValue := 1
    averageLuminance := 0.5
    hasRenderTarget := true
    hasRenderer := true }

/-- `setExposure(value)`: writes `currentExposure` (the uniform write and the
UI callback carry the same value and no other state). -/
def setExposure (value : ℝ) (s : State) : State :=
  { s with currentExposure := value }

/-- `init(initialState)`: `exposure ?? 1.0`, `autoExposure ?? false`. -/
def init (exposure : Option ℝ) (autoExposure : Option Bool) (s : State) : State :=
  let m := exposure.getD 1
  { s with
    manualExposure := m
    currentExposure := m
    autoExposureValue := m
    enabled := autoExposure.getD false }

/-- `setEnabled(enabled)`. -/
def setEnabled (enabled : Bool) (s : State) : State :=
  if enabled then
    { s with enabled := true, autoExposureValue := s.currentExposure }
  else
    setExposure s.manualExposure { s with enabled := false }

/-- `setManualExposure(value)`. -/
def setManualExposure (value : ℝ) (s : State) : State :=
  let s := { s with manualExposure := value }
  if s.enabled then s else setExposure value s

/-- Rec. 709 weighted luminance of one readback pixel:
`0.2126 * r/255 + 0.7152 * g/255 + 0.0722 * b/255`. -/
def pixelLuminance (p : Pixel) : ℚ :=
  0.2126 * ((p.r : ℚ) / 255) + 0.7152 * ((p.g : ℚ) / 255) + 0.0722 * ((p.b : ℚ) / 255)

/-- `sum / (buffer.length / 4)`: average luminance over the readback buffer. -/
def bufferAverage (pixels : List Pixel) : ℚ :=
  (pixels.map pixelLuminance).sum / (pixels.length : ℚ)

/-- `sampleSceneLuminance()`.  The off-screen render happens before the
`try`; the readback either yields the pixel buffer or throws, and a thrown
error is caught and ignored (the comment in the source reads
"Ignore read errors" — nothing is logged).  On success the smoothed
average is `clamp(lerp(averageLuminance, avg, 0.35), 0, 1)`. -/
def sampleSceneLuminance (oc : ReadOutcome) (s : State) : State × FrameEffects :=
  if !s.hasRenderTarget || !s.hasRenderer then (s, noEffects)
  else
    match oc with
    | .err => (s, ⟨true, true, []⟩)
    | .ok pixels =>
        let avg := bufferAverage pixels
        ({ s with averageLuminance := clampQ (lerpQ s.averageLuminance avg 0.35) 0 1 },
         ⟨true, true, []⟩)

/-- The clamp at the top of `applyAutoExposure`:
`clamp(this.averageLuminance, 0.05, 1.2)`. -/
def clampedLuminance (avgLum : ℚ) : ℚ := clampQ avgLum 0.05 1.2

/-- The target-exposure computation of `applyAutoExposure` (lines 157–182):
clamp the luminance, branch on `luminance > brightThreshold`, and clamp the
result to `[min, max] = [0.5, 2.5]`. -/
noncomputable def targetExposure (avgLum : ℚ) : ℝ :=
  let luminance := clampedLuminance avgLum
  let raw : ℝ :=
    if 0.65 < luminance then
      let thresholdExposure : ℝ := 0.45 / 0.65
      let normalizedBrightness : ℚ := (luminance - 0.65) / (1.2 - 0.65)
      let curve : ℝ := (normalizedBrightness : ℝ) ^ (1.8 : ℝ)
      lerpR thresholdExposure 0.5 curve
    else
      (0.45 : ℝ) / (luminance : ℝ)
  clampR raw 0.5 2.5

/-- `applyAutoExposure()`: early return when disabled; otherwise smooth the
auto value toward the target with factor `0.12` and write it through
`setExposure`. -/
noncomputable def applyAutoExposure (s : State) : State :=
  if !s.enabled then s
  else
    let newAuto := lerpR s.autoExposureValue (targetExposure s.averageLuminance) 0.12
    setExposure newAuto { s with autoExposureValue := newAuto }

/-- `update(unlitMode)`: skip everything in unlit mode, otherwise sample the
scene luminance and then apply auto exposure. -/
noncomputable def update (unlitMode : Bool) (oc : ReadOutcome) (s : State) :
    State × FrameEffects :=
  if unlitMode then (s, noEffects)
  else
    let p := sampleSceneLuminance oc s
    (applyAutoExposure p.1, p.2)

/-- `resetLuminance()`. -/
def resetLuminance (s : State) : State :=
  { s with
    averageLuminance := 0.45
    autoExposureValue := s.currentExposure }

/-- `dispose()`: releases the luminance render target. -/
def dispose (s : State) : State :=
  { s with hasRenderTarget := false }

/-- The public operations quantified over by the exposure invariant claim.
`update` carries the readback outcome its frame would observe. -/
inductive Op where
  | init (exposure : Option ℝ) (autoExposure : Option Bool)
  | update (unlitMode : Bool) (oc : ReadOutcome)
  | setManualExposure (value : ℝ)
  | setEnabled (enabled : Bool)
  | resetLuminance

/-- Interpret one public operation on the controller state. -/
noncomputable def step (s : State) : Op → State
  | .init e a => init e a s
  | .update u oc => (update u oc s).1
  | .setManualExposure v => setManualExposure v s
  | .setEnabled b => setEnabled b s
  | .resetLuminance => resetLuminance s

/-- Run a sequence of public operations from the constructor state. -/
noncomputable def runOps (ops : List Op) : State :=
  ops.foldl step initial

/-- The argument of the most recent `setManualExposure` in a sequence, if
any (the quantity named by the claim). -/
def lastSetManualArg (ops : List Op) : Option ℝ :=
  ops.foldl
    (fun acc op => match op with
      | .setManualExposure v => some v
      | _ => acc)
    none

/-- Accumulator for the manual-exposure value the code actually tracks:
a `setManualExposure` argument or an `init` exposure (`?? 1.0`) overwrite
it, every other operation leaves it alone. -/
def manualAcc (acc : ℝ) : Op → ℝ
  | .setManualExposure v => v
  | .init e _ => e.getD 1
  | _ => acc

/-- The manual-exposure value after a sequence of operations, starting from
the constructor value `1.0`. -/
def expectedManual (ops : List Op) : ℝ :=
  ops.foldl manualAcc 1

/-- Spec-side target-exposure curve, phrased the way the claim states it:
at or below the bright threshold `0.65` the inverse relationship
`targetLuminance / luminance`; above it a power curve with exponent `1.8`
interpolating from the exposure value at the threshold down to the minimum
exposure, reached at luminance `1.2`; the target clamped to `[0.5, 2.5]`. -/
noncomputable def specTargetExposure (avgLum : ℚ) : ℝ :=
  let luminance := clampedLuminance avgLum
  if luminance ≤ 0.65 then
    clampR ((0.45 : ℝ) / (luminance : ℝ)) 0.5 2.5
  else
    clampR
      (lerpR ((0.45 : ℝ) / 0.65) 0.5
        ((((luminance - 0.65) / (1.2 - 0.65) : ℚ) : ℝ) ^ (1.8 : ℝ)))
      0.5 2.5

/-- A fully black 8×8 readback buffer (64 opaque black pixels). -/
def blackPixels : List Pixel := List.replicate 64 ⟨0, 0, 0, 255⟩

/-- A 64-pixel readback buffer whose Rec. 709 average luminance is exactly
`0.45` (48 gray pixels of byte value 115 and 16 of byte value 114:
`(48·115 + 16·114) / (64·255) = 7344 / 16320 = 0.45`). -/
def grayPixels45 : List Pixel :=
  List.replicate 48 ⟨115, 115, 115, 255⟩ ++ List.replicate 16 ⟨114, 114, 114, 255⟩

/-- The constructor state with auto-exposure switched on. -/
def enabledInitial : State := { initial with enabled := true }

/-- An enabled controller state with manual exposure `1`, average luminance
`avg` and auto/current exposure `a` (the shape every state reached by
repeated `update` calls from `enabledInitial` has). -/
def mkEnabled (avg : ℚ) (a : ℝ) : State :=
  { enabled := true
    manualExposure := 1
    currentExposure := a
    autoExposureValue := a
    averageLuminance := avg
    hasRenderTarget := true
    hasRenderer := true }

/-- The trajectory of the controller when every frame samples the constant
luminance `0.45` (the `grayPixels45` buffer), starting from the enabled
constructor state whose smoothed average is still `0.5`. -/
noncomputable def lumSeq (n : ℕ) : State :=
  (fun s => (update false (.ok grayPixels45) s).1)^[n] enabledInitial

end AutoExposureController

namespace EnvironmentController

/-- State of an `EnvironmentController` instance together with the scene
fields it writes.  GPU textures and render targets are identifiers handed
out by the allocator `fresh`; `disposed` lists every identifier whose
`dispose()` has been called.  The cache is a JS `Map` written with
`cache.set` (newest binding first, `List.lookup` reads it). -/
structure State where
  presets : List String
  enabled : Bool
  backgroundEnabled : Bool
  strength : ℚ
  blurriness : ℚ
  rotation : ℚ
  fallbackColor : String
  cache : List (String × ℕ)
  currentPreset : Option String
  currentTexture : Option ℕ
  environmentRenderTarget : Option ℕ
  rotationRenderTarget : Option ℕ
  sceneEnvironment : Option ℕ
  sceneEnvironmentIntensity : ℚ
  sceneBackground : Option ℕ
  sceneBackgroundBlurriness : ℚ
  sceneBackgroundIntensity : ℚ
  clearColor : String
  pmremDisposed : Bool
  disposed : List ℕ
  fresh : ℕ

/-- Constructor state with the default options
(`enabled = true`, `backgroundEnabled = true`, `strength = 1.0`,
`blurriness = 0.0`, `rotation = 0`, `fallbackColor = '#000000'`,
empty cache, no current texture, no render targets). -/
def initial (presets : List String) : State :=
  { presets := presets
    enabled := true
    backgroundEnabled := true
    strength := 1
    blurriness := 0
    rotation := 0
    fallbackColor := "#000000"
    cache := []
    currentPreset := none
    currentTexture := none
    environmentRenderTarget := none
    rotationRenderTarget := none
    sceneEnvironment := none
    sceneEnvironmentIntensity := 0
    sceneBackground := none
    sceneBackgroundBlurriness := 0
    sceneBackgroundIntensity := 1
    clearColor := "#000000"
    pmremDisposed := false
    disposed := []
    fresh := 0 }

/-- Identifiers of every texture stored in the preset cache. -/
def cacheIds (s : State) : List ℕ := s.cache.map Prod.snd

/-- `environmentRenderTarget.dispose(); environmentRenderTarget = null`. -/
def disposeEnvTarget (s : State) : State :=
  match s.environmentRenderTarget with
  | some id => { s with disposed := id :: s.disposed, environmentRenderTarget := none }
  | none => s

/-- `rotationRenderTarget.dispose(); rotationRenderTarget = null`. -/
def disposeRotTarget (s : State) : State :=
  match s.rotationRenderTarget with
  | some id => { s with disposed := id :: s.disposed, rotationRenderTarget := none }
  | none => s

/-- `_createRotatedTexture`: dispose the previous rotation render target,
allocate a new one matching the source, render the rotated equirect into it
and return its texture.  (Sources in this model always have detectable
dimensions, so the `Could not detect HDRI texture dimensions` early return
is not taken.) -/
def createRotatedTexture (s : State) : ℕ × State :=
  let s := disposeRotTarget s
  (s.fresh, { s with rotationRenderTarget := some s.fresh, fresh := s.fresh + 1 })

/-- The `hdriActive` path of `_applyEnvironment()`: dispose the previous
environment render target, derive a rotated source when rotation ≠ 0, run
the PMREM convolution (`fromEquirectangular` allocates a fresh render
target whose texture becomes `scene.environment`), then derive the
background (a second rotated copy when rotation ≠ 0, the convolved map when
blurred). -/
def applyEnvironmentActive (tex : ℕ) (s : State) : State :=
  let s := disposeEnvTarget s
  let src := if s.rotation ≠ 0 then createRotatedTexture s else (tex, s)
  let s := src.2
  let envTex := s.fresh
  let s := { s with environmentRenderTarget := some envTex, fresh := s.fresh + 1 }
  let s := { s with
    sceneEnvironment := some envTex
    sceneEnvironmentIntensity := s.strength }
  if s.backgroundEnabled then
    let bg := if s.rotation ≠ 0 then createRotatedTexture s else (tex, s)
    let s := bg.2
    let bgTex := if 0 < s.blurriness then envTex else bg.1
    { s with
      sceneBackground := some bgTex
      sceneBackgroundBlurriness := s.blurriness
      sceneBackgroundIntensity := s.strength }
  else
    { s with
      sceneBackground := none
      sceneBackgroundBlurriness := 0
      sceneBackgroundIntensity := 1
      clearColor := s.fallbackColor }

/-- `_applyEnvironment()`: flat fallback when disabled or no texture is
loaded, otherwise the active path. -/
def applyEnvironment (s : State) : State :=
  match s.currentTexture, s.enabled with
  | some tex, true => applyEnvironmentActive tex s
  | _, _ =>
      { s with
        sceneEnvironment := none
        sceneEnvironmentIntensity := 0
        sceneBackground := none
        clearColor := s.fallbackColor }

/-- `setPreset(preset)`: no-op on an unknown preset; reapply the cached
texture when the preset is already current and cached; otherwise load
(`loadOk` is the outcome of the awaited `_loadHdriTexture`: a successful
load decodes a fresh texture, a failure is caught, logged and returns
null leaving the state untouched). -/
def setPreset (preset : String) (loadOk : Bool) (s : State) : State :=
  if preset ∈ s.presets then
    if s.currentPreset = some preset ∧ (s.cache.lookup preset).isSome then
      match s.cache.lookup preset with
      | some t => applyEnvironment { s with currentTexture := some t }
      | none => s
    else if loadOk then
      let tex := s.fresh
      applyEnvironment
        { s with
          fresh := s.fresh + 1
          cache := (preset, tex) :: s.cache
          currentPreset := some preset
          currentTexture := some tex }
    else s
  else s

/-- `setEnabled(enabled)`. -/
def setEnabled (enabled : Bool) (s : State) : State :=
  applyEnvironment { s with enabled := enabled }

/-- `setBackgroundEnabled(enabled)`. -/
def setBackgroundEnabled (enabled : Bool) (s : State) : State :=
  applyEnvironment { s with backgroundEnabled := enabled }

/-- `setStrength(value)`: `Math.max(0, value)`. -/
def setStrength (value : ℚ) (s : State) : State :=
  applyEnvironment { s with strength := max 0 value }

/-- `setBlurriness(value)`: `Math.min(1, Math.max(0, value))`. -/
def setBlurriness (value : ℚ) (s : State) : State :=
  applyEnvironment { s with blurriness := min 1 (max 0 value) }

/-- `setRotation(value)`: normalise to `[0, 360)` and early-return when the
stored rotation is already the normalised angle. -/
def setRotation (value : ℚ) (s : State) : State :=
  let normalized := normalizeDeg value
  if s.rotation = normalized then s
  else applyEnvironment { s with rotation := normalized }

/-- `setFallbackColor(color)`. -/
def setFallbackColor (color : String) (s : State) : State :=
  let s := { s with fallbackColor := color }
  if !s.backgroundEnabled || !s.enabled || s.currentTexture.isNone then
    { s with clearColor := s.fallbackColor }
  else s

/-- `dispose()`: releases the environment render target, the rotation
render target and the PMREM generator.  The preset cache is not touched. -/
def dispose (s : State) : State :=
  let s := disposeEnvTarget s
  let s := disposeRotTarget s
  { s with pmremDisposed := true }

/-- The public operations of the controller. -/
inductive Op where
  | setPreset (preset : String) (loadOk : Bool)
  | setEnabled (enabled : Bool)
  | setBackgroundEnabled (enabled : Bool)
  | setStrength (value : ℚ)
  | setBlurriness (value : ℚ)
  | setRotation (value : ℚ)
  | setFallbackColor (color : String)
  | dispose

/-- Interpret one public operation. -/
def step (s : State) : Op → State
  | .setPreset p ok => setPreset p ok s
  | .setEnabled b => setEnabled b s
  | .setBackgroundEnabled b => setBackgroundEnabled b s
  | .setStrength v => setStrength v s
  | .setBlurriness v => setBlurriness v s
  | .setRotation v => setRotation v s
  | .setFallbackColor c => setFallbackColor c s
  | .dispose => dispose s

/-- Run a sequence of public operations from the constructor state. -/
def runOps (presets : List String) (ops : List Op) : State :=
  ops.foldl step (initial presets)

end EnvironmentController

/-- A three.js `Vector3`. -/
structure Vec3 where
  x : ℝ
  y : ℝ
  z : ℝ

theorem Vec3.ext_xyz {a b : Vec3} (hx : a.x = b.x) (hy : a.y = b.y) (hz : a.z = b.z) :
    a = b := by
  cases a; cases b; simp_all

namespace LightsController

/-- The positional state of a `LightsController`: the rig rotation and the
current and base positions of the three directional lights (`key`, `fill`,
`rim`).  `basePositions` are cloned once in the constructor and never
written afterwards.  (Light colours/intensities and the debug indicators
are untouched by `setRotation` and are outside this positional model.) -/
structure State where
  rotation : ℚ
  key : Vec3
  fill : Vec3
  rim : Vec3
  baseKey : Vec3
  baseFill : Vec3
  baseRim : Vec3

/-- Constructor positions: key `(5,5,5)`, fill `(-4,3,3)`, rim `(-2,4,-4)`,
base positions cloned from them, rotation from options (`?? 0`). -/
def initial (rotation : ℚ) : State :=
  { rotation := rotation
    key := ⟨5, 5, 5⟩
    fill := ⟨-4, 3, 3⟩
    rim := ⟨-2, 4, -4⟩
    baseKey := ⟨5, 5, 5⟩
    baseFill := ⟨-4, 3, 3⟩
    baseRim := ⟨-2, 4, -4⟩ }

/-- The per-light position update of `setRotation`:
`rotatedX = base.x * cos + base.z * sin`, `y` unchanged,
`rotatedZ = -base.x * sin + base.z * cos`. -/
def rotatePos (c sn : ℝ) (base : Vec3) : Vec3 :=
  ⟨base.x * c + base.z * sn, base.y, -base.x * sn + base.z * c⟩

/-- `setRotation(value)`: normalise the angle to `[0, 360)`, store it, and
recompute each directional light position from its immutable base position
(the source also returns `normalized`, which the state records in
`rotation`). -/
noncomputable def setRotation (value : ℚ) (s : State) : State :=
  let normalized := normalizeDeg value
  let radians := degToRad normalized
  let c := Real.cos radians
  let sn := Real.sin radians
  { s with
    rotation := normalized
    key := rotatePos c sn s.baseKey
    fill := rotatePos c sn s.baseFill
    rim := rotatePos c sn s.baseRim }

end LightsController

/-- One pass of the post-processing chain: its construction-time `enabled`
and `renderToScreen` flags (three.js `Pass` defaults both of these to
`enabled = true`, `renderToScreen = false`; the constructor overrides are
taken verbatim from the source). -/
structure PassSpec where
  name : String
  enabled : Bool
  renderToScreen : Bool
deriving DecidableEq

/-- A pass left at the three.js `Pass` defaults. -/
def mkPass (name : String) : PassSpec := ⟨name, true, false⟩

namespace PostProcessingPipeline

def renderPass : PassSpec := mkPass "render"

def bokehPass : PassSpec := mkPass "bokeh"

def bloomPass : PassSpec := mkPass "bloom"

def filmPass : PassSpec := mkPass "film"

def bloomTintPass : PassSpec := mkPass "bloomTint"

def grainTintPass : PassSpec := mkPass "grainTint"

/-- `this.lensDirtPass.enabled = false`. -/
def lensDirtPass : PassSpec := { mkPass "lensDirt" with enabled := false }

/-- `this.aberrationPass.renderToScreen = false`. -/
def aberrationPass : PassSpec := { mkPass "aberration" with renderToScreen := false }

/-- `this.exposurePass.renderToScreen = false`. -/
def exposurePass : PassSpec := { mkPass "exposure" with renderToScreen := false }

/-- `this.fxaaPass.enabled = false; this.fxaaPass.renderToScreen = false`. -/
def fxaaPass : PassSpec := { mkPass "fxaa" with enabled := false, renderToScreen := false }

/-- Modelled from the spec: `ColorAdjustController.js` is not under src/;
per the spec the colour-grade pass is an ordinary shader pass that defaults
to enabled and is not the terminal render-to-screen pass. -/
def colorAdjustPass : PassSpec := mkPass "colorAdjust"

/-- `this.toneMappingPass.renderToScreen = true`. -/
def toneMappingPass : PassSpec := { mkPass "toneMapping" with renderToScreen := true }

/-- The pass chain in the exact order of the `composer.addPass` calls in
the constructor. -/
def passes : List PassSpec :=
  [renderPass, bokehPass, bloomPass, bloomTintPass, lensDirtPass, filmPass,
   grainTintPass, aberrationPass, fxaaPass, exposurePass, colorAdjustPass,
   toneMappingPass]

end PostProcessingPipeline

/-- Resource invariant of the environment controller: every identifier is
below the allocator cursor, no cached texture has been disposed, and the two
transient render targets are never aliases of cached textures. -/
def EnvironmentController.Inv (s : EnvironmentController.State) : Prop :=
  (∀ id ∈ EnvironmentController.cacheIds s, id < s.fresh ∧ id ∉ s.disposed) ∧
  (∀ id ∈ s.disposed, id < s.fresh) ∧
  (∀ id, s.environmentRenderTarget = some id →
    id < s.fresh ∧ id ∉ EnvironmentController.cacheIds s) ∧
  (∀ id, s.rotationRenderTarget = some id →
    id < s.fresh ∧ id ∉ EnvironmentController.cacheIds s)

/-! ## Arithmetic of the JavaScript `%`-based angle normalisation -/

lemma jsMod_eq_sub (x y : ℚ) : jsMod x y = x - y * (ratTrunc (x / y) : ℚ) := rfl

lemma jsMod_nonneg_bounds {v : ℚ} (h : 0 ≤ v) :
    0 ≤ jsMod v 360 ∧ jsMod v 360 < 360 := by
  have hq : 0 ≤ v / 360 := by positivity
  have hrw : jsMod v 360 = 360 * Int.fract (v / 360) := by
    rw [jsMod_eq_sub]
    unfold ratTrunc
    rw [if_pos hq, Int.fract]
    field_simp
  constructor
  · rw [hrw]
    have := Int.fract_nonneg (α := ℚ) (v / 360)
    linarith
  · rw [hrw]
    have := Int.fract_lt_one (α := ℚ) (v / 360)
    linarith

lemma jsMod_neg_bounds {v : ℚ} (h : v < 0) :
    -360 < jsMod v 360 ∧ jsMod v 360 ≤ 0 := by
  have hq : ¬ 0 ≤ v / 360 := by
    intro hc
    nlinarith
  have hrw : jsMod v 360 = -(360 * Int.fract (-v / 360)) := by
    rw [jsMod_eq_sub]
    unfold ratTrunc
    rw [if_neg hq]
    have hceil : (⌈v / 360⌉ : ℤ) = -⌊-(v / 360)⌋ := by
      rw [← Int.ceil_neg, neg_neg]
    rw [hceil, Int.fract]
    push_cast
    have : -(v / 360) = -v / 360 := by ring
    rw [← this]
    field_simp
    ring
  constructor
  · rw [hrw]
    have := Int.fract_lt_one (α := ℚ) (-v / 360)
    linarith
  · rw [hrw]
    have := Int.fract_nonneg (α := ℚ) (-v / 360)
    linarith

lemma jsMod_range (v : ℚ) : -360 < jsMod v 360 ∧ jsMod v 360 < 360 := by
  rcases le_or_lt 0 v with h | h
  · have := jsMod_nonneg_bounds h
    exact ⟨by linarith [this.1], this.2⟩
  · have := jsMod_neg_bounds h
    exact ⟨this.1, by linarith [this.2]⟩

lemma jsMod_sub_int (v : ℚ) : ∃ k : ℤ, jsMod v 360 = v - 360 * k :=
  ⟨ratTrunc (v / 360), rfl⟩

lemma normalizeDeg_bounds (v : ℚ) :
    0 ≤ normalizeDeg v ∧ normalizeDeg v < 360 := by
  unfold normalizeDeg
  exact jsMod_nonneg_bounds (by linarith [(jsMod_range v).1])

lemma normalizeDeg_sub_int (v : ℚ) : ∃ k : ℤ, normalizeDeg v = v - 360 * k := by
  unfold normalizeDeg
  obtain ⟨k₁, h₁⟩ := jsMod_sub_int v
  obtain ⟨k₂, h₂⟩ := jsMod_sub_int (jsMod v 360 + 360)
  refine ⟨k₁ + k₂ - 1, ?_⟩
  rw [h₂, h₁]
  push_cast
  ring

lemma eq_of_deg_diff_int_mul {a b : ℚ} {k : ℤ} (ha0 : 0 ≤ a) (ha : a < 360)
    (hb0 : 0 ≤ b) (hb : b < 360) (h : a - b = 360 * k) : a = b := by
  have hk1 : (-1 : ℚ) < (k : ℚ) := by nlinarith
  have hk2 : ((k : ℚ)) < 1 := by nlinarith
  have hk1' : (-1 : ℤ) < k := by exact_mod_cast hk1
  have hk2' : k < (1 : ℤ) := by exact_mod_cast hk2
  have hk0 : k = 0 := by omega
  rw [hk0] at h
  push_cast at h
  linarith

lemma normalizeDeg_add_360 (v : ℚ) : normalizeDeg (v + 360) = normalizeDeg v := by
  obtain ⟨k₁, h₁⟩ := normalizeDeg_sub_int (v + 360)
  obtain ⟨k₂, h₂⟩ := normalizeDeg_sub_int v
  have hA := normalizeDeg_bounds (v + 360)
  have hB := normalizeDeg_bounds v
  refine eq_of_deg_diff_int_mul hA.1 hA.2 hB.1 hB.2 (k := k₂ - k₁ + 1) ?_
  rw [h₁, h₂]
  push_cast
  ring

lemma normalizeDeg_int_mul_360 (k : ℤ) : normalizeDeg (360 * k) = 0 := by
  obtain ⟨m, hm⟩ := normalizeDeg_sub_int (360 * k)
  have hA := normalizeDeg_bounds (360 * k)
  refine eq_of_deg_diff_int_mul hA.1 hA.2 le_rfl (by norm_num) (k := k - m) ?_
  rw [hm]
  push_cast
  ring

/-! ## Clamp and lerp facts -/

lemma clampQ_mem_of_le {v lo hi : ℚ} (h : lo ≤ hi) :
    lo ≤ clampQ v lo hi ∧ clampQ v lo hi ≤ hi :=
  ⟨le_max_left _ _, max_le h (min_le_left _ _)⟩

lemma clampQ_of_mem {v lo hi : ℚ} (h1 : lo ≤ v) (h2 : v ≤ hi) :
    clampQ v lo hi = v := by
  unfold clampQ
  rw [min_eq_right h2, max_eq_right h1]

lemma clampQ_of_ge_hi {v lo hi : ℚ} (h1 : hi ≤ v) (h2 : lo ≤ hi) :
    clampQ v lo hi = hi := by
  unfold clampQ
  rw [min_eq_left h1, max_eq_right h2]

lemma clampQ_of_le_lo {v lo hi : ℚ} (h1 : v ≤ lo) (h2 : v ≤ hi) :
    clampQ v lo hi = lo := by
  unfold clampQ
  rw [min_eq_right h2, max_eq_left h1]

lemma clampR_mem_of_le {v lo hi : ℝ} (h : lo ≤ hi) :
    lo ≤ clampR v lo hi ∧ clampR v lo hi ≤ hi :=
  ⟨le_max_left _ _, max_le h (min_le_left _ _)⟩

lemma clampR_of_mem {v lo hi : ℝ} (h1 : lo ≤ v) (h2 : v ≤ hi) :
    clampR v lo hi = v := by
  unfold clampR
  rw [min_eq_right h2, max_eq_right h1]

lemma clampR_of_ge_hi {v lo hi : ℝ} (h1 : hi ≤ v) (h2 : lo ≤ hi) :
    clampR v lo hi = hi := by
  unfold clampR
  rw [min_eq_left h1, max_eq_right h2]

lemma lerpR_sub (x y t : ℝ) : lerpR x y t - x = t * (y - x) := by
  unfold lerpR
  ring

lemma lerpR_one (x y : ℝ) : lerpR x y 1 = y := by
  unfold lerpR
  ring

/-! ## Structural lemmas about the auto-exposure controller -/

namespace AutoExposureController

lemma sample_exists_avg (oc : ReadOutcome) (s : State) :
    ∃ L, (sampleSceneLuminance oc s).1 = { s with averageLuminance := L } := by
  unfold sampleSceneLuminance
  split
  · exact ⟨s.averageLuminance, rfl⟩
  · cases oc with
    | err => exact ⟨s.averageLuminance, rfl⟩
    | ok pixels => exact ⟨_, rfl⟩

lemma applyAuto_of_not_enabled {s : State} (h : s.enabled = false) :
    applyAutoExposure s = s := by
  unfold applyAutoExposure
  rw [h]
  rfl

lemma applyAuto_of_enabled {s : State} (h : s.enabled = true) :
    applyAutoExposure s =
      { s with
        autoExposureValue :=
          lerpR s.autoExposureValue (targetExposure s.averageLuminance) 0.12
        currentExposure :=
          lerpR s.autoExposureValue (targetExposure s.averageLuminance) 0.12 } := by
  unfold applyAutoExposure setExposure
  rw [h]
  rfl

lemma update_false_eq (oc : ReadOutcome) (s : State) :
    update false oc s =
      (applyAutoExposure (sampleSceneLuminance oc s).1, (sampleSceneLuminance oc s).2) := by
  rfl

lemma sample_effects_of_live {s : State} (oc : ReadOutcome)
    (hrt : s.hasRenderTarget = true) (hr : s.hasRenderer = true) :
    (sampleSceneLuminance oc s).2 = ⟨true, true, []⟩ := by
  unfold sampleSceneLuminance
  rw [hrt, hr]
  cases oc <;> rfl

lemma sample_err (s : State) : (sampleSceneLuminance .err s).1 = s := by
  unfold sampleSceneLuminance
  split
  · rfl
  · rfl

lemma sample_logs (oc : ReadOutcome) (s : State) :
    (sampleSceneLuminance oc s).2.logs = [] := by
  unfold sampleSceneLuminance
  split
  · rfl
  · cases oc <;> rfl

/-- The target exposure at an already-converged luminance in the inverse
branch of the curve. -/
lemma targetExposure_inverse {L : ℚ} (h1 : 0.05 ≤ L) (h2 : L ≤ 0.65)
    (hT1 : (0.5 : ℝ) ≤ 0.45 / (L : ℝ)) (hT2 : (0.45 : ℝ) / (L : ℝ) ≤ 2.5) :
    targetExposure L = (0.45 : ℝ) / (L : ℝ) := by
  have hcl : clampedLuminance L = L :=
    clampQ_of_mem h1 (h2.trans (by norm_num))
  simp only [targetExposure, clampedLuminance] at *
  rw [hcl, if_neg (not_lt.mpr h2)]
  exact clampR_of_mem hT1 hT2

/-- One `update(false)` frame on a reachable enabled state whose fresh
smoothed average lands in the inverse branch of the exposure curve. -/
lemma update_step_inverse (pixels : List Pixel) (L : ℚ) (a : ℝ) (L' : ℚ)
    (hL' : clampQ (lerpQ L (bufferAverage pixels) 0.35) 0 1 = L')
    (h1 : 0.05 ≤ L') (h2 : L' ≤ 0.65)
    (hT1 : (0.5 : ℝ) ≤ 0.45 / (L' : ℝ)) (hT2 : (0.45 : ℝ) / (L' : ℝ) ≤ 2.5) :
    (update false (.ok pixels) (mkEnabled L a)).1 =
      mkEnabled L' (lerpR a ((0.45 : ℝ) / (L' : ℝ)) 0.12) := by
  have hs : (sampleSceneLuminance (.ok pixels) (mkEnabled L a)).1 =
      mkEnabled L' a := by
    rw [← hL']
    rfl
  have happ := applyAuto_of_enabled (s := mkEnabled L' a) rfl
  calc (update false (.ok pixels) (mkEnabled L a)).1
      = applyAutoExposure (mkEnabled L' a) := by rw [update_false_eq, hs]
    _ = mkEnabled L' (lerpR a ((0.45 : ℝ) / (L' : ℝ)) 0.12) := by
        rw [happ]
        dsimp only [mkEnabled]
        rw [targetExposure_inverse h1 h2 hT1 hT2]

/-- The code's target-exposure computation coincides with the curve as the
spec phrases it (inverse at-or-below the threshold, power lerp above). -/
lemma targetExposure_eq_spec (avgLum : ℚ) :
    targetExposure avgLum = specTargetExposure avgLum := by
  simp only [targetExposure, specTargetExposure]
  rcases le_or_lt (clampedLuminance avgLum) 0.65 with h | h
  · rw [if_neg (not_lt.mpr h), if_pos h]
  · rw [if_pos h, if_neg (not_le.mpr h)]

/-- Every field other than `averageLuminance`, `autoExposureValue` and
`currentExposure` is preserved by `update`, and the latter two are
preserved whenever auto-exposure is disabled. -/
lemma update_preserve (u : Bool) (oc : ReadOutcome) (s : State) :
    (update u oc s).1.manualExposure = s.manualExposure ∧
    (update u oc s).1.enabled = s.enabled ∧
    (update u oc s).1.hasRenderTarget = s.hasRenderTarget ∧
    (update u oc s).1.hasRenderer = s.hasRenderer ∧
    (s.enabled = false →
      (update u oc s).1.currentExposure = s.currentExposure ∧
      (update u oc s).1.autoExposureValue = s.autoExposureValue) := by
  cases u with
  | true => exact ⟨rfl, rfl, rfl, rfl, fun _ => ⟨rfl, rfl⟩⟩
  | false =>
      obtain ⟨L, hL⟩ := sample_exists_avg oc s
      rw [update_false_eq, hL]
      cases hen : s.enabled with
      | false =>
          rw [applyAuto_of_not_enabled (by rw [← hen])]
          exact ⟨rfl, rfl, rfl, rfl, fun _ => ⟨rfl, rfl⟩⟩
      | true =>
          rw [applyAuto_of_enabled (by rw [← hen])]
          exact ⟨rfl, rfl, rfl, rfl, fun hfalse => absurd hfalse (by simp [hen])⟩

/-- One public operation keeps `manualExposure` equal to the tracked manual
value and, while disabled, `currentExposure` equal to it as well. -/
lemma step_tracks (s : State) (m : ℝ) (op : Op)
    (h1 : s.manualExposure = m)
    (h2 : s.enabled = false → s.currentExposure = m) :
    (step s op).manualExposure = manualAcc m op ∧
    ((step s op).enabled = false → (step s op).currentExposure = manualAcc m op) := by
  cases op with
  | init e a => exact ⟨rfl, fun _ => rfl⟩
  | update u oc =>
      have h := update_preserve u oc s
      refine ⟨h.1.trans h1, fun hdis => ?_⟩
      have hen : s.enabled = false := h.2.1.symm.trans hdis
      exact ((h.2.2.2.2 hen).1.trans (h2 hen))
  | setManualExposure v =>
      unfold step setManualExposure setExposure
      cases hen : s.enabled with
      | false => simp [hen, manualAcc]
      | true => simp [hen, manualAcc]
  | setEnabled b =>
      cases b with
      | true => exact ⟨h1, fun hdis => by simp [step, setEnabled] at hdis⟩
      | false => exact ⟨h1, fun _ => h1⟩
  | resetLuminance => exact ⟨h1, h2⟩

/-- `manualExposure` / disabled-`currentExposure` tracking over a whole
operation sequence. -/
lemma run_tracks (ops : List Op) :
    ∀ (s : State) (m : ℝ),
      s.manualExposure = m → (s.enabled = false → s.currentExposure = m) →
      (ops.foldl step s).manualExposure = ops.foldl manualAcc m ∧
      ((ops.foldl step s).enabled = false →
        (ops.foldl step s).currentExposure = ops.foldl manualAcc m) := by
  induction ops with
  | nil => exact fun s m h1 h2 => ⟨h1, h2⟩
  | cons op rest ih =>
      intro s m h1 h2
      have h := step_tracks s m op h1 h2
      simpa using ih (step s op) (manualAcc m op) h.1 h.2

end AutoExposureController

/-! ## Claim theorems -/

open AutoExposureController in
/-- C9: the pass chain assembled by the `PostProcessingPipeline` constructor
has the fixed order render → bokeh → bloom → bloomTint → lensDirt → film →
grainTint → aberration → fxaa → exposure → colorAdjust → toneMapping;
exactly one pass — the final tone-mapping pass — has `renderToScreen` set;
and every pass defaults to enabled except the FXAA pass and the lens-dirt
overlay pass. -/
theorem c9_pass_chain_fixed :
    PostProcessingPipeline.passes.map PassSpec.name =
      ["render", "bokeh", "bloom", "bloomTint", "lensDirt", "film", "grainTint",
       "aberration", "fxaa", "exposure", "colorAdjust", "toneMapping"] ∧
    (PostProcessingPipeline.passes.filter (fun p => p.renderToScreen)).map PassSpec.name =
      ["toneMapping"] ∧
    PostProcessingPipeline.passes.getLast? = some PostProcessingPipeline.toneMappingPass ∧
    ((PostProcessingPipeline.passes.filter (fun p => !p.enabled)).map PassSpec.name =
      ["lensDirt", "fxaa"]) := by
  refine ⟨?_, ?_, ?_, ?_⟩ <;> decide

/-- C10: `applyAutoExposure` clamps the smoothed average luminance into
`[0.05, 1.2]` before dividing, so the inverse-branch divisor is at least
`0.05` (never zero, even for a fully black scene whose raw average is `0`)
and the computed target exposure always lies in the bounded range
`[0.5, 2.5]`. -/
theorem c10_luminance_clamp_safety :
    ∀ avgLum : ℚ,
      0.05 ≤ AutoExposureController.clampedLuminance avgLum ∧
      AutoExposureController.clampedLuminance avgLum ≤ 1.2 ∧
      AutoExposureController.clampedLuminance avgLum ≠ 0 ∧
      (0.5 : ℝ) ≤ AutoExposureController.targetExposure avgLum ∧
      AutoExposureController.targetExposure avgLum ≤ 2.5 ∧
      AutoExposureController.clampedLuminance 0 = 0.05 ∧
      AutoExposureController.targetExposure 0 = 2.5 := by
  intro avgLum
  have hmem : 0.05 ≤ AutoExposureController.clampedLuminance avgLum ∧
      AutoExposureController.clampedLuminance avgLum ≤ 1.2 :=
    clampQ_mem_of_le (by norm_num)
  have htgt : (0.5 : ℝ) ≤ AutoExposureController.targetExposure avgLum ∧
      AutoExposureController.targetExposure avgLum ≤ 2.5 := by
    simp only [AutoExposureController.targetExposure]
    exact clampR_mem_of_le (by norm_num)
  have hzero : AutoExposureController.clampedLuminance 0 = 0.05 := by
    unfold AutoExposureController.clampedLuminance
    exact clampQ_of_le_lo (by norm_num) (by norm_num)
  have hblack : AutoExposureController.targetExposure 0 = 2.5 := by
    simp only [AutoExposureController.targetExposure, hzero]
    rw [if_neg (by norm_num : ¬ (0.65 : ℚ) < 0.05)]
    have hc : ((0.05 : ℚ) : ℝ) = 0.05 := by norm_num
    rw [hc]
    exact clampR_of_ge_hi (by norm_num) (by norm_num)
  exact ⟨hmem.1, hmem.2, fun hc => by rw [hc] at hmem; norm_num at hmem,
    htgt.1, htgt.2, hzero, hblack⟩

/-- C1: with auto-exposure enabled, `applyAutoExposure` derives its target
from the smoothed average luminance exactly as the spec's curve states it —
`0.45 / luminance` at or below the bright threshold `0.65`, a power-curve
(exponent `1.8`) interpolation from the threshold exposure down to the
minimum exposure above it, reaching the minimum `0.5` at luminance `1.2` —
clamps the target to `[0.5, 2.5]`, and smooths toward it with factor
`0.12`. -/
theorem c1_target_exposure_curve_spec :
    (∀ avgLum : ℚ,
      AutoExposureController.targetExposure avgLum =
        AutoExposureController.specTargetExposure avgLum) ∧
    (∀ s : AutoExposureController.State, s.enabled = true →
      AutoExposureController.applyAutoExposure s =
        { s with
          autoExposureValue := lerpR s.autoExposureValue
            (AutoExposureController.specTargetExposure s.averageLuminance) 0.12
          currentExposure := lerpR s.autoExposureValue
            (AutoExposureController.specTargetExposure s.averageLuminance) 0.12 }) ∧
    (∀ avgLum : ℚ, 1.2 ≤ avgLum →
      AutoExposureController.targetExposure avgLum = 0.5) := by
  refine ⟨AutoExposureController.targetExposure_eq_spec, ?_, ?_⟩
  · intro s hs
    rw [AutoExposureController.applyAuto_of_enabled hs,
      AutoExposureController.targetExposure_eq_spec]
  · intro avgLum h
    have hcl : AutoExposureController.clampedLuminance avgLum = 1.2 :=
      clampQ_of_ge_hi h (by norm_num)
    simp only [AutoExposureController.targetExposure, hcl]
    rw [if_pos (by norm_num : (0.65 : ℚ) < 1.2)]
    have hnb : ((1.2 - 0.65) / (1.2 - 0.65) : ℚ) = 1 := by norm_num
    rw [hnb]
    have h1 : ((1 : ℚ) : ℝ) = 1 := by norm_num
    rw [h1, Real.one_rpow, lerpR_one]
    exact clampR_of_mem le_rfl (by norm_num)

/-- Witness for C1 at concrete inputs (the enabled constructor state, and
the luminance ceiling `1.2`). -/
theorem c1_target_exposure_curve_spec_witness :
    AutoExposureController.targetExposure 0.5 =
      AutoExposureController.specTargetExposure 0.5 ∧
    AutoExposureController.enabledInitial.enabled = true ∧
    AutoExposureController.applyAutoExposure AutoExposureController.enabledInitial =
      { AutoExposureController.enabledInitial with
        autoExposureValue := lerpR AutoExposureController.enabledInitial.autoExposureValue
          (AutoExposureController.specTargetExposure
            AutoExposureController.enabledInitial.averageLuminance) 0.12
        currentExposure := lerpR AutoExposureController.enabledInitial.autoExposureValue
          (AutoExposureController.specTargetExposure
            AutoExposureController.enabledInitial.averageLuminance) 0.12 } ∧
    (1.2 : ℚ) ≤ 1.2 ∧
    AutoExposureController.targetExposure 1.2 = 0.5 :=
  ⟨c1_target_exposure_curve_spec.1 0.5, rfl,
   c1_target_exposure_curve_spec.2.1 _ rfl, le_rfl,
   c1_target_exposure_curve_spec.2.2 1.2 le_rfl⟩

/-- C2 (amended): while auto-exposure is disabled, `currentExposure` equals
the most recently established manual value — the argument of the last
`setManualExposure`, unless a later `init` supplied its own exposure value
(`?? 1.0`), starting from the constructor value `1.0`. -/
theorem c2_disabled_tracks_manual :
    ∀ ops : List AutoExposureController.Op,
      (AutoExposureController.runOps ops).enabled = false →
      (AutoExposureController.runOps ops).currentExposure =
        AutoExposureController.expectedManual ops := by
  intro ops h
  exact (AutoExposureController.run_tracks ops AutoExposureController.initial 1 rfl
    (fun _ => rfl)).2 h

/-- Counterexample to C2 as stated: after
`setManualExposure(2); init({exposure: 3, autoExposure: false})` the
controller is disabled and `currentExposure = 3`, not the argument `2` of
the most recent `setManualExposure` call. -/
theorem c2_counterexample_init_overrides :
    (AutoExposureController.runOps
      [.setManualExposure 2, .init (some 3) (some false)]).enabled = false ∧
    AutoExposureController.lastSetManualArg
      [.setManualExposure 2, .init (some 3) (some false)] = some 2 ∧
    (AutoExposureController.runOps
      [.setManualExposure 2, .init (some 3) (some false)]).currentExposure = 3 ∧
    (3 : ℝ) ≠ 2 :=
  ⟨rfl, rfl, rfl, by norm_num⟩

/-- Witness for C2 on a sequence with genuine auto-exposure history:
enable, run a frame, set the manual value, disable. -/
theorem c2_disabled_tracks_manual_witness :
    (AutoExposureController.runOps
      [.setEnabled true, .update false .err, .setManualExposure 2,
       .setEnabled false]).enabled = false ∧
    (AutoExposureController.runOps
      [.setEnabled true, .update false .err, .setManualExposure 2,
       .setEnabled false]).currentExposure =
      AutoExposureController.expectedManual
        [.setEnabled true, .update false .err, .setManualExposure 2,
         .setEnabled false] :=
  ⟨rfl, c2_disabled_tracks_manual _ rfl⟩

/-- C3 (amended): `update(false)` renders into the luminance target and
reads pixels back on every frame in which the render target and renderer
exist — also while auto-exposure is disabled; being disabled only skips the
exposure computation, leaving `currentExposure` and `autoExposureValue`
untouched (the sampled `averageLuminance` is still refreshed). -/
theorem c3_sampling_unconditional :
    ∀ (s : AutoExposureController.State) (oc : AutoExposureController.ReadOutcome),
      s.hasRenderTarget = true → s.hasRenderer = true →
      ((AutoExposureController.update false oc s).2.rendered = true ∧
       (AutoExposureController.update false oc s).2.readbackAttempted = true) ∧
      (s.enabled = false →
        (AutoExposureController.update false oc s).1.currentExposure = s.currentExposure ∧
        (AutoExposureController.update false oc s).1.autoExposureValue =
          s.autoExposureValue) := by
  intro s oc hrt hr
  have heff : (AutoExposureController.update false oc s).2 = ⟨true, true, []⟩ :=
    (congrArg Prod.snd (AutoExposureController.update_false_eq oc s)).trans
      (AutoExposureController.sample_effects_of_live oc hrt hr)
  exact ⟨⟨by rw [heff], by rw [heff]⟩,
    (AutoExposureController.update_preserve false oc s).2.2.2.2⟩

/-- Counterexample to C3 as stated: on the disabled constructor state a
single `update(false)` does render into the luminance target, does read
back, and changes `averageLuminance` (from `0.5` to `0.325` for a black
frame). -/
theorem c3_counterexample_sampling_while_disabled :
    AutoExposureController.initial.enabled = false ∧
    (AutoExposureController.update false (.ok AutoExposureController.blackPixels)
      AutoExposureController.initial).2.rendered = true ∧
    (AutoExposureController.update false (.ok AutoExposureController.blackPixels)
      AutoExposureController.initial).2.readbackAttempted = true ∧
    (AutoExposureController.update false (.ok AutoExposureController.blackPixels)
      AutoExposureController.initial).1.averageLuminance ≠
      AutoExposureController.initial.averageLuminance := by
  refine ⟨rfl, rfl, rfl, ?_⟩
  have hb : AutoExposureController.bufferAverage AutoExposureController.blackPixels = 0 := by
    simp [AutoExposureController.bufferAverage, AutoExposureController.blackPixels,
      AutoExposureController.pixelLuminance]
  have key : (AutoExposureController.update false (.ok AutoExposureController.blackPixels)
      AutoExposureController.initial).1.averageLuminance =
      clampQ (lerpQ 0.5 (AutoExposureController.bufferAverage
        AutoExposureController.blackPixels) 0.35) 0 1 := rfl
  have hinit : AutoExposureController.initial.averageLuminance = 0.5 := rfl
  rw [key, hb, hinit,
    clampQ_of_mem (by norm_num [lerpQ]) (by norm_num [lerpQ])]
  norm_num [lerpQ]

/-- Witness for C3 on the constructor state with a failing readback. -/
theorem c3_sampling_unconditional_witness :
    AutoExposureController.initial.hasRenderTarget = true ∧
    AutoExposureController.initial.hasRenderer = true ∧
    (AutoExposureController.update false .err
       AutoExposureController.initial).2.rendered = true :=
  ⟨rfl, rfl, (c3_sampling_unconditional AutoExposureController.initial .err rfl rfl).1.1⟩

/-- C8 (amended): a thrown pixel readback never escapes `update` — the
failure is swallowed without logging, `averageLuminance` keeps its previous
value, and when auto-exposure is enabled the exposure computation continues
from that last good average. -/
theorem c8_readback_failure_silent :
    ∀ s : AutoExposureController.State,
      (AutoExposureController.update false .err s).2.logs = [] ∧
      (AutoExposureController.update false .err s).1.averageLuminance =
        s.averageLuminance ∧
      (s.enabled = true →
        (AutoExposureController.update false .err s).1.autoExposureValue =
          lerpR s.autoExposureValue
            (AutoExposureController.targetExposure s.averageLuminance) 0.12) := by
  intro s
  have herr := AutoExposureController.sample_err s
  refine ⟨?_, ?_, ?_⟩
  · rw [AutoExposureController.update_false_eq]
    exact AutoExposureController.sample_logs .err s
  · rw [AutoExposureController.update_false_eq, herr]
    cases hen : s.enabled with
    | false => rw [AutoExposureController.applyAuto_of_not_enabled hen]
    | true => rw [AutoExposureController.applyAuto_of_enabled hen]
  · intro hen
    rw [AutoExposureController.update_false_eq, herr,
      AutoExposureController.applyAuto_of_enabled hen]

/-- Counterexample to C8 as stated: the failure path emits no log line (the
catch block deliberately ignores the error). -/
theorem c8_counterexample_no_logging :
    (AutoExposureController.update false .err AutoExposureController.initial).2.logs = [] ∧
    (AutoExposureController.update false .err
      AutoExposureController.initial).1.averageLuminance =
      AutoExposureController.initial.averageLuminance :=
  ⟨rfl, rfl⟩

/-- Witness for C8 on the enabled constructor state. -/
theorem c8_readback_failure_silent_witness :
    AutoExposureController.enabledInitial.enabled = true ∧
    (AutoExposureController.update false .err
      AutoExposureController.enabledInitial).1.averageLuminance =
      AutoExposureController.enabledInitial.averageLuminance :=
  ⟨rfl, (c8_readback_failure_silent AutoExposureController.enabledInitial).2.1⟩

/-- C6: `resetLuminance()` re-seeds `averageLuminance` to the target
luminance `0.45` and `autoExposureValue` to the current exposure; one
subsequent `update()` moves `autoExposureValue` exactly one smoothing step
(blend factor `0.12`) from the pre-reset `currentExposure` toward the newly
computed target, so it stays within that step of the pre-reset exposure. -/
theorem c6_reset_luminance_no_jump :
    ∀ (s : AutoExposureController.State) (oc : AutoExposureController.ReadOutcome),
      s.enabled = true →
      (AutoExposureController.resetLuminance s).averageLuminance = 0.45 ∧
      (AutoExposureController.resetLuminance s).autoExposureValue = s.currentExposure ∧
      (AutoExposureController.resetLuminance s).currentExposure = s.currentExposure ∧
      (AutoExposureController.update false oc
          (AutoExposureController.resetLuminance s)).1.autoExposureValue =
        lerpR s.currentExposure
          (AutoExposureController.targetExposure
            ((AutoExposureController.sampleSceneLuminance oc
              (AutoExposureController.resetLuminance s)).1.averageLuminance)) 0.12 ∧
      |(AutoExposureController.update false oc
          (AutoExposureController.resetLuminance s)).1.autoExposureValue -
          s.currentExposure| ≤
        0.12 * |AutoExposureController.targetExposure
            ((AutoExposureController.sampleSceneLuminance oc
              (AutoExposureController.resetLuminance s)).1.averageLuminance) -
            s.currentExposure| := by
  intro s oc hen
  obtain ⟨L, hL⟩ :=
    AutoExposureController.sample_exists_avg oc (AutoExposureController.resetLuminance s)
  have hLavg : (AutoExposureController.sampleSceneLuminance oc
      (AutoExposureController.resetLuminance s)).1.averageLuminance = L := by
    rw [hL]
  have h4 : (AutoExposureController.update false oc
      (AutoExposureController.resetLuminance s)).1.autoExposureValue =
      lerpR s.currentExposure (AutoExposureController.targetExposure L) 0.12 := by
    rw [AutoExposureController.update_false_eq, hL,
      AutoExposureController.applyAuto_of_enabled
        (show ({ AutoExposureController.resetLuminance s with
          averageLuminance := L } : AutoExposureController.State).enabled = true from hen)]
    rfl
  refine ⟨rfl, rfl, rfl, by rw [hLavg, h4], ?_⟩
  rw [hLavg, h4, lerpR_sub, abs_mul, abs_of_pos (by norm_num : (0:ℝ) < 0.12)]

/-- Witness for C6 on the enabled constructor state with a failing
readback. -/
theorem c6_reset_luminance_no_jump_witness :
    AutoExposureController.enabledInitial.enabled = true ∧
    (AutoExposureController.resetLuminance
      AutoExposureController.enabledInitial).averageLuminance = 0.45 :=
  ⟨rfl, (c6_reset_luminance_no_jump AutoExposureController.enabledInitial .err rfl).1⟩

/-- The `grayPixels45` buffer averages to exactly the target luminance. -/
lemma grayPixels45_average :
    AutoExposureController.bufferAverage AutoExposureController.grayPixels45 = 0.45 := by
  simp [AutoExposureController.bufferAverage, AutoExposureController.grayPixels45,
    AutoExposureController.pixelLuminance]
  norm_num

/-- One constant-luminance frame on an already-converged average. -/
lemma update_step_at_target (pixels : List AutoExposureController.Pixel)
    (hb : AutoExposureController.bufferAverage pixels = 0.45) (a : ℝ) :
    (AutoExposureController.update false (.ok pixels)
      (AutoExposureController.mkEnabled 0.45 a)).1 =
      AutoExposureController.mkEnabled 0.45 (lerpR a 1 0.12) := by
  have hdiv : (0.45 : ℝ) / ((0.45 : ℚ) : ℝ) = 1 := by norm_num
  have h := AutoExposureController.update_step_inverse pixels 0.45 a 0.45
    (by rw [hb, clampQ_of_mem (by norm_num [lerpQ]) (by norm_num [lerpQ])]
        norm_num [lerpQ])
    (by norm_num) (by norm_num)
    (by rw [hdiv]; norm_num) (by rw [hdiv]; norm_num)
  rwa [hdiv] at h

/-- C5 (amended): with auto-exposure enabled and the smoothed average
luminance already at the target luminance `0.45`, constant samples equal to
the target make `autoExposureValue` converge monotonically to
`0.45 / 0.45 = 1` (inside `[0.5, 2.5]`) with no oscillation: each frame is
one smoothing step toward `1`, the trajectory is monotone on either side of
`1`, tends to `1`, and stays at `1` once there.  (Starting from an average
luminance other than `0.45` the trajectory need not be monotone — see the
counterexample.) -/
theorem c5_convergence_from_target_luminance :
    ∀ (a₀ : ℝ) (pixels : List AutoExposureController.Pixel),
      AutoExposureController.bufferAverage pixels = 0.45 →
      (∀ n, ((fun t => (AutoExposureController.update false (.ok pixels) t).1)^[n + 1]
          (AutoExposureController.mkEnabled 0.45 a₀)).autoExposureValue =
        lerpR ((fun t => (AutoExposureController.update false (.ok pixels) t).1)^[n]
          (AutoExposureController.mkEnabled 0.45 a₀)).autoExposureValue 1 0.12) ∧
      (a₀ ≤ 1 →
        Monotone (fun n =>
          ((fun t => (AutoExposureController.update false (.ok pixels) t).1)^[n]
            (AutoExposureController.mkEnabled 0.45 a₀)).autoExposureValue) ∧
        ∀ n, ((fun t => (AutoExposureController.update false (.ok pixels) t).1)^[n]
          (AutoExposureController.mkEnabled 0.45 a₀)).autoExposureValue ≤ 1) ∧
      (1 ≤ a₀ →
        Antitone (fun n =>
          ((fun t => (AutoExposureController.update false (.ok pixels) t).1)^[n]
            (AutoExposureController.mkEnabled 0.45 a₀)).autoExposureValue) ∧
        ∀ n, 1 ≤ ((fun t => (AutoExposureController.update false (.ok pixels) t).1)^[n]
          (AutoExposureController.mkEnabled 0.45 a₀)).autoExposureValue) ∧
      Filter.Tendsto (fun n =>
          ((fun t => (AutoExposureController.update false (.ok pixels) t).1)^[n]
            (AutoExposureController.mkEnabled 0.45 a₀)).autoExposureValue)
        Filter.atTop (nhds 1) ∧
      (a₀ = 1 →
        ∀ n, ((fun t => (AutoExposureController.update false (.ok pixels) t).1)^[n]
          (AutoExposureController.mkEnabled 0.45 a₀)).autoExposureValue = 1) := by
  intro a₀ pixels hb
  set f : AutoExposureController.State → AutoExposureController.State :=
    fun t => (AutoExposureController.update false (.ok pixels) t).1 with hf
  have hstate : ∀ n, f^[n] (AutoExposureController.mkEnabled 0.45 a₀) =
      AutoExposureController.mkEnabled 0.45 (1 + (a₀ - 1) * 0.88 ^ n) := by
    intro n
    induction n with
    | zero =>
        simp only [Function.iterate_zero_apply, pow_zero]
        exact congrArg (AutoExposureController.mkEnabled 0.45)
          (show a₀ = 1 + (a₀ - 1) * 1 by ring)
    | succ n ih =>
        rw [Function.iterate_succ_apply', ih]
        show (AutoExposureController.update false (.ok pixels)
          (AutoExposureController.mkEnabled 0.45 (1 + (a₀ - 1) * 0.88 ^ n))).1 = _
        rw [update_step_at_target pixels hb]
        refine congrArg (AutoExposureController.mkEnabled 0.45) ?_
        simp only [lerpR]
        ring
  have hseq : ∀ n, (f^[n] (AutoExposureController.mkEnabled 0.45 a₀)).autoExposureValue =
      1 + (a₀ - 1) * 0.88 ^ n := by
    intro n
    rw [hstate n]
    rfl
  refine ⟨?_, ?_, ?_, ?_, ?_⟩
  · intro n
    rw [hseq n, hseq (n + 1)]
    simp only [lerpR]
    ring
  · intro ha
    constructor
    · refine monotone_nat_of_le_succ (fun n => ?_)
      rw [hseq n, hseq (n + 1), pow_succ]
      have hp : (0 : ℝ) ≤ 0.88 ^ n := pow_nonneg (by norm_num) n
      nlinarith [mul_nonneg (by linarith : (0 : ℝ) ≤ 1 - a₀) hp]
    · intro n
      rw [hseq n]
      have hp : (0 : ℝ) ≤ 0.88 ^ n := pow_nonneg (by norm_num) n
      nlinarith [mul_nonneg (by linarith : (0 : ℝ) ≤ 1 - a₀) hp]
  · intro ha
    constructor
    · refine antitone_nat_of_succ_le (fun n => ?_)
      rw [hseq n, hseq (n + 1), pow_succ]
      have hp : (0 : ℝ) ≤ 0.88 ^ n := pow_nonneg (by norm_num) n
      nlinarith [mul_nonneg (by linarith : (0 : ℝ) ≤ a₀ - 1) hp]
    · intro n
      rw [hseq n]
      have hp : (0 : ℝ) ≤ 0.88 ^ n := pow_nonneg (by norm_num) n
      nlinarith [mul_nonneg (by linarith : (0 : ℝ) ≤ a₀ - 1) hp]
  · have hpow : Filter.Tendsto (fun n : ℕ => (0.88 : ℝ) ^ n)
        Filter.atTop (nhds 0) :=
      tendsto_pow_atTop_nhds_zero_of_lt_one (by norm_num) (by norm_num)
    have hlim := (hpow.const_mul (a₀ - 1)).const_add 1
    simp only [mul_zero, add_zero] at hlim
    exact hlim.congr (fun n => (hseq n).symm)
  · intro ha n
    rw [hseq n, ha]
    ring

/-- Counterexample to C5 as stated: starting from the enabled constructor
state (average luminance still `0.5`) under constant samples of luminance
`0.45`, the auto-exposure value starts at the limit `1`, drops below it on
the first frame, and later rises again (frame 5 exceeds frame 4) — the
trajectory is neither monotone nor stable at the limit. -/
theorem c5_counterexample_nonmonotone :
    AutoExposureController.enabledInitial.enabled = true ∧
    AutoExposureController.bufferAverage AutoExposureController.grayPixels45 = 0.45 ∧
    (AutoExposureController.lumSeq 0).autoExposureValue = 1 ∧
    (AutoExposureController.lumSeq 1).autoExposureValue < 1 ∧
    (AutoExposureController.lumSeq 4).autoExposureValue <
      (AutoExposureController.lumSeq 5).autoExposureValue := by
  have hstep : ∀ n, AutoExposureController.lumSeq (n + 1) =
      (AutoExposureController.update false (.ok AutoExposureController.grayPixels45)
        (AutoExposureController.lumSeq n)).1 := by
    intro n
    simp only [AutoExposureController.lumSeq, Function.iterate_succ_apply']
  have h0 : AutoExposureController.lumSeq 0 = AutoExposureController.mkEnabled 0.5 1 := rfl
  have havg := grayPixels45_average
  have mkStep : ∀ (L L' : ℚ) (a : ℝ), lerpQ L 0.45 0.35 = L' →
      (0.05 ≤ L' ∧ L' ≤ 0.65) → 0 ≤ L' → L' ≤ 1 →
      (0.5 : ℝ) ≤ 0.45 / (L' : ℝ) → (0.45 : ℝ) / (L' : ℝ) ≤ 2.5 →
      (AutoExposureController.update false (.ok AutoExposureController.grayPixels45)
        (AutoExposureController.mkEnabled L a)).1 =
        AutoExposureController.mkEnabled L' (lerpR a ((0.45 : ℝ) / (L' : ℝ)) 0.12) := by
    intro L L' a hL hmem h0' h1' hT1 hT2
    refine AutoExposureController.update_step_inverse _ _ _ _ ?_ hmem.1 hmem.2 hT1 hT2
    rw [havg, hL, clampQ_of_mem h0' h1']
  have hs1 : AutoExposureController.lumSeq 1 =
      AutoExposureController.mkEnabled (193/400)
        (lerpR 1 ((0.45 : ℝ) / ((193/400 : ℚ) : ℝ)) 0.12) := by
    rw [hstep 0, h0]
    exact mkStep 0.5 (193/400) 1 (by norm_num [lerpQ]) (by norm_num) (by norm_num)
      (by norm_num) (by push_cast; norm_num) (by push_cast; norm_num)
  have hs2 : AutoExposureController.lumSeq 2 =
      AutoExposureController.mkEnabled (3769/8000)
        (lerpR (lerpR 1 ((0.45 : ℝ) / ((193/400 : ℚ) : ℝ)) 0.12)
          ((0.45 : ℝ) / ((3769/8000 : ℚ) : ℝ)) 0.12) := by
    rw [hstep 1, hs1]
    exact mkStep _ _ _ (by norm_num [lerpQ]) (by norm_num) (by norm_num)
      (by norm_num) (by push_cast; norm_num) (by push_cast; norm_num)
  have hs3 : AutoExposureController.lumSeq 3 =
      AutoExposureController.mkEnabled (74197/160000)
        (lerpR (lerpR (lerpR 1 ((0.45 : ℝ) / ((193/400 : ℚ) : ℝ)) 0.12)
            ((0.45 : ℝ) / ((3769/8000 : ℚ) : ℝ)) 0.12)
          ((0.45 : ℝ) / ((74197/160000 : ℚ) : ℝ)) 0.12) := by
    rw [hstep 2, hs2]
    exact mkStep _ _ _ (by norm_num [lerpQ]) (by norm_num) (by norm_num)
      (by norm_num) (by push_cast; norm_num) (by push_cast; norm_num)
  have hs4 : AutoExposureController.lumSeq 4 =
      AutoExposureController.mkEnabled (1468561/3200000)
        (lerpR (lerpR (lerpR (lerpR 1 ((0.45 : ℝ) / ((193/400 : ℚ) : ℝ)) 0.12)
              ((0.45 : ℝ) / ((3769/8000 : ℚ) : ℝ)) 0.12)
            ((0.45 : ℝ) / ((74197/160000 : ℚ) : ℝ)) 0.12)
          ((0.45 : ℝ) / ((1468561/3200000 : ℚ) : ℝ)) 0.12) := by
    rw [hstep 3, hs3]
    exact mkStep _ _ _ (by norm_num [lerpQ]) (by norm_num) (by norm_num)
      (by norm_num) (by push_cast; norm_num) (by push_cast; norm_num)
  have hs5 : AutoExposureController.lumSeq 5 =
      AutoExposureController.mkEnabled (29171293/64000000)
        (lerpR (lerpR (lerpR (lerpR (lerpR 1 ((0.45 : ℝ) / ((193/400 : ℚ) : ℝ)) 0.12)
                ((0.45 : ℝ) / ((3769/8000 : ℚ) : ℝ)) 0.12)
              ((0.45 : ℝ) / ((74197/160000 : ℚ) : ℝ)) 0.12)
            ((0.45 : ℝ) / ((1468561/3200000 : ℚ) : ℝ)) 0.12)
          ((0.45 : ℝ) / ((29171293/64000000 : ℚ) : ℝ)) 0.12) := by
    rw [hstep 4, hs4]
    exact mkStep _ _ _ (by norm_num [lerpQ]) (by norm_num) (by norm_num)
      (by norm_num) (by push_cast; norm_num) (by push_cast; norm_num)
  refine ⟨rfl, havg, rfl, ?_, ?_⟩
  · rw [hs1]
    show lerpR 1 ((0.45 : ℝ) / ((193/400 : ℚ) : ℝ)) 0.12 < 1
    simp only [lerpR]
    push_cast
    norm_num
  · rw [hs4, hs5]
    show lerpR (lerpR (lerpR (lerpR 1 _ 0.12) _ 0.12) _ 0.12) _ 0.12 <
      lerpR (lerpR (lerpR (lerpR (lerpR 1 _ 0.12) _ 0.12) _ 0.12) _ 0.12) _ 0.12
    simp only [lerpR]
    push_cast
    norm_num

/-- Witness for C5: starting auto value `2` (above the limit), the
trajectory tends to `1`. -/
theorem c5_convergence_from_target_luminance_witness :
    AutoExposureController.bufferAverage AutoExposureController.grayPixels45 = 0.45 ∧
    Filter.Tendsto (fun n =>
        ((fun t => (AutoExposureController.update false
            (.ok AutoExposureController.grayPixels45) t).1)^[n]
          (AutoExposureController.mkEnabled 0.45 2)).autoExposureValue)
      Filter.atTop (nhds 1) :=
  ⟨grayPixels45_average,
   (c5_convergence_from_target_luminance 2 AutoExposureController.grayPixels45
     grayPixels45_average).2.2.2.1⟩

/-! ## Resource lifecycle of the environment controller -/

namespace EnvironmentController

lemma inv_disposeEnvTarget {s : State} (h : Inv s) : Inv (disposeEnvTarget s) := by
  obtain ⟨h1, h2, h3, h4⟩ := h
  cases henv : s.environmentRenderTarget with
  | none =>
      unfold disposeEnvTarget
      rw [henv]
      exact ⟨h1, h2, h3, h4⟩
  | some id =>
      unfold disposeEnvTarget
      rw [henv]
      obtain ⟨hlt, hnc⟩ := h3 id henv
      refine ⟨?_, ?_, ?_, ?_⟩
      · intro j hj
        obtain ⟨hjlt, hjd⟩ := h1 j hj
        refine ⟨hjlt, fun hmem => ?_⟩
        rcases List.mem_cons.mp hmem with hjid | hjd2
        · exact hnc (hjid ▸ hj)
        · exact hjd hjd2
      · intro j hj
        rcases List.mem_cons.mp hj with hjid | hjd2
        · exact hjid ▸ hlt
        · exact h2 j hjd2
      · intro j hj
        exact Option.noConfusion hj
      · intro j hj
        exact h4 j hj

lemma inv_disposeRotTarget {s : State} (h : Inv s) : Inv (disposeRotTarget s) := by
  obtain ⟨h1, h2, h3, h4⟩ := h
  cases hrot : s.rotationRenderTarget with
  | none =>
      unfold disposeRotTarget
      rw [hrot]
      exact ⟨h1, h2, h3, h4⟩
  | some id =>
      unfold disposeRotTarget
      rw [hrot]
      obtain ⟨hlt, hnc⟩ := h4 id hrot
      refine ⟨?_, ?_, ?_, ?_⟩
      · intro j hj
        obtain ⟨hjlt, hjd⟩ := h1 j hj
        refine ⟨hjlt, fun hmem => ?_⟩
        rcases List.mem_cons.mp hmem with hjid | hjd2
        · exact hnc (hjid ▸ hj)
        · exact hjd hjd2
      · intro j hj
        rcases List.mem_cons.mp hj with hjid | hjd2
        · exact hjid ▸ hlt
        · exact h2 j hjd2
      · intro j hj
        exact h3 j hj
      · intro j hj
        exact Option.noConfusion hj

lemma inv_createRotated {s : State} (h : Inv s) : Inv (createRotatedTexture s).2 := by
  obtain ⟨h1, h2, h3, h4⟩ := inv_disposeRotTarget h
  refine ⟨?_, ?_, ?_, ?_⟩
  · intro j hj
    obtain ⟨hjlt, hjd⟩ := h1 j hj
    exact ⟨Nat.lt_succ_of_lt hjlt, hjd⟩
  · intro j hj
    exact Nat.lt_succ_of_lt (h2 j hj)
  · intro j hj
    obtain ⟨hjlt, hjnc⟩ := h3 j hj
    exact ⟨Nat.lt_succ_of_lt hjlt, hjnc⟩
  · intro j hj
    have hje : j = (disposeRotTarget s).fresh := (Option.some.inj hj).symm
    subst hje
    refine ⟨Nat.lt_succ_self _, fun hmem => ?_⟩
    exact absurd (h1 _ hmem).1 (lt_irrefl _)

lemma inv_allocEnvTarget {s : State} (h : Inv s) :
    Inv { s with environmentRenderTarget := some s.fresh, fresh := s.fresh + 1 } := by
  obtain ⟨h1, h2, h3, h4⟩ := h
  refine ⟨?_, ?_, ?_, ?_⟩
  · intro j hj
    obtain ⟨hjlt, hjd⟩ := h1 j hj
    exact ⟨Nat.lt_succ_of_lt hjlt, hjd⟩
  · intro j hj
    exact Nat.lt_succ_of_lt (h2 j hj)
  · intro j hj
    have hje : j = s.fresh := (Option.some.inj hj).symm
    subst hje
    refine ⟨Nat.lt_succ_self _, fun hmem => ?_⟩
    exact absurd (h1 _ hmem).1 (lt_irrefl _)
  · intro j hj
    obtain ⟨hjlt, hjnc⟩ := h4 j hj
    exact ⟨Nat.lt_succ_of_lt hjlt, hjnc⟩

lemma inv_applyEnvironmentActive (tex : ℕ) {s : State} (h : Inv s) :
    Inv (applyEnvironmentActive tex s) := by
  have h1 := inv_disposeEnvTarget h
  unfold applyEnvironmentActive
  dsimp only
  split_ifs <;>
    first
      | exact inv_createRotated (inv_allocEnvTarget (inv_createRotated h1))
      | exact inv_createRotated (inv_allocEnvTarget h1)
      | exact inv_allocEnvTarget (inv_createRotated h1)
      | exact inv_allocEnvTarget h1

lemma inv_applyEnvironment {s : State} (h : Inv s) : Inv (applyEnvironment s) := by
  unfold applyEnvironment
  rcases hct : s.currentTexture with _ | tex <;> cases hen : s.enabled <;>
    first
      | exact h
      | exact inv_applyEnvironmentActive tex h

lemma inv_setPreset (p : String) (ok : Bool) {s : State} (h : Inv s) :
    Inv (setPreset p ok s) := by
  unfold setPreset
  split_ifs with hmem hcur hok
  · rcases hl : s.cache.lookup p with _ | t
    · exact h
    · exact inv_applyEnvironment h
  · apply inv_applyEnvironment
    obtain ⟨h1, h2, h3, h4⟩ := h
    refine ⟨?_, ?_, ?_, ?_⟩
    · intro j hj
      rcases List.mem_cons.mp hj with hj0 | hjs
      · subst hj0
        refine ⟨Nat.lt_succ_self _, fun hd => ?_⟩
        exact absurd (h2 _ hd) (lt_irrefl _)
      · obtain ⟨hjlt, hjd⟩ := h1 j hjs
        exact ⟨Nat.lt_succ_of_lt hjlt, hjd⟩
    · intro j hj
      exact Nat.lt_succ_of_lt (h2 j hj)
    · intro j hj
      obtain ⟨hjlt, hjnc⟩ := h3 j hj
      refine ⟨Nat.lt_succ_of_lt hjlt, fun hm => ?_⟩
      rcases List.mem_cons.mp hm with hj0 | hjs
      · exact absurd (hj0 ▸ hjlt) (lt_irrefl _)
      · exact hjnc hjs
    · intro j hj
      obtain ⟨hjlt, hjnc⟩ := h4 j hj
      refine ⟨Nat.lt_succ_of_lt hjlt, fun hm => ?_⟩
      rcases List.mem_cons.mp hm with hj0 | hjs
      · exact absurd (hj0 ▸ hjlt) (lt_irrefl _)
      · exact hjnc hjs
  · exact h
  · exact h

lemma inv_dispose {s : State} (h : Inv s) : Inv (dispose s) :=
  inv_disposeRotTarget (inv_disposeEnvTarget h)

lemma inv_step (op : Op) {s : State} (h : Inv s) : Inv (step s op) := by
  cases op with
  | setPreset p ok => exact inv_setPreset p ok h
  | setEnabled b => exact inv_applyEnvironment h
  | setBackgroundEnabled b => exact inv_applyEnvironment h
  | setStrength v => exact inv_applyEnvironment h
  | setBlurriness v => exact inv_applyEnvironment h
  | setRotation v =>
      show Inv (setRotation v s)
      unfold setRotation
      dsimp only
      split_ifs
      · exact h
      · exact inv_applyEnvironment h
  | setFallbackColor c =>
      show Inv (setFallbackColor c s)
      unfold setFallbackColor
      dsimp only
      split_ifs
      · exact h
      · exact h
  | dispose => exact inv_dispose h

lemma inv_initial (presets : List String) : Inv (initial presets) :=
  ⟨fun j hj => absurd hj (List.not_mem_nil j),
   fun j hj => absurd hj (List.not_mem_nil j),
   fun _ hj => Option.noConfusion hj,
   fun _ hj => Option.noConfusion hj⟩

lemma inv_foldl (ops : List Op) :
    ∀ s : State, Inv s → Inv (ops.foldl step s) := by
  induction ops with
  | nil => exact fun s hs => hs
  | cons op rest ih =>
      intro s hs
      simpa using ih (step s op) (inv_step op hs)

lemma inv_runOps (presets : List String) (ops : List Op) :
    Inv (runOps presets ops) :=
  inv_foldl ops (initial presets) (inv_initial presets)

/-- What `dispose()` actually does: both transient render targets disposed,
the PMREM generator disposed, the cache untouched. -/
lemma dispose_spec (s : State) :
    (dispose s).cache = s.cache ∧
    (dispose s).pmremDisposed = true ∧
    (∀ id, s.environmentRenderTarget = some id → id ∈ (dispose s).disposed) ∧
    (∀ id, s.rotationRenderTarget = some id → id ∈ (dispose s).disposed) := by
  cases henv : s.environmentRenderTarget <;> cases hrot : s.rotationRenderTarget <;>
    simp [dispose, disposeEnvTarget, disposeRotTarget, henv, hrot]

lemma disposeEnvTarget_rotation (s : State) :
    (disposeEnvTarget s).rotation = s.rotation := by
  cases henv : s.environmentRenderTarget <;> simp [disposeEnvTarget, henv]

lemma disposeRotTarget_rotation (s : State) :
    (disposeRotTarget s).rotation = s.rotation := by
  cases hrot : s.rotationRenderTarget <;> simp [disposeRotTarget, hrot]

lemma createRotated_rotation (s : State) :
    ((createRotatedTexture s).2).rotation = s.rotation :=
  disposeRotTarget_rotation s

lemma applyEnvironmentActive_rotation (tex : ℕ) (s : State) :
    (applyEnvironmentActive tex s).rotation = s.rotation := by
  unfold applyEnvironmentActive
  dsimp only
  split_ifs <;>
    first
      | exact (createRotated_rotation _).trans
          ((createRotated_rotation _).trans (disposeEnvTarget_rotation _))
      | exact (createRotated_rotation _).trans (disposeEnvTarget_rotation _)
      | exact disposeEnvTarget_rotation _

lemma applyEnvironment_rotation (s : State) :
    (applyEnvironment s).rotation = s.rotation := by
  unfold applyEnvironment
  rcases hct : s.currentTexture with _ | tex <;> cases hen : s.enabled <;>
    first
      | rfl
      | exact applyEnvironmentActive_rotation tex s

end EnvironmentController

/-- C4 (amended): `EnvironmentController.dispose()` releases the derived
environment and rotation render targets and the PMREM generator, but not
the textures stored in the preset cache — those are never disposed by any
public operation of the controller, teardown included. -/
theorem c4_dispose_leaves_cache :
    (∀ (presets : List String) (ops : List EnvironmentController.Op) (id : ℕ),
      id ∈ EnvironmentController.cacheIds (EnvironmentController.runOps presets ops) →
      id ∉ (EnvironmentController.runOps presets ops).disposed) ∧
    (∀ s : EnvironmentController.State,
      (EnvironmentController.dispose s).cache = s.cache ∧
      (EnvironmentController.dispose s).pmremDisposed = true ∧
      (∀ id, s.environmentRenderTarget = some id →
        id ∈ (EnvironmentController.dispose s).disposed) ∧
      (∀ id, s.rotationRenderTarget = some id →
        id ∈ (EnvironmentController.dispose s).disposed)) := by
  constructor
  · intro presets ops id hmem
    exact ((EnvironmentController.inv_runOps presets ops).1 id hmem).2
  · exact EnvironmentController.dispose_spec

/-- Counterexample to C4 as stated: load the preset `studio` (texture id
`0` enters the cache) and call `dispose()` — the controller marks the PMREM
generator disposed and frees its render target, but texture `0` is still
never disposed. -/
theorem c4_counterexample_cache_not_disposed :
    EnvironmentController.cacheIds (EnvironmentController.runOps ["studio"]
      [.setPreset "studio" true, .dispose]) = [0] ∧
    (0 : ℕ) ∉ (EnvironmentController.runOps ["studio"]
      [.setPreset "studio" true, .dispose]).disposed ∧
    (EnvironmentController.runOps ["studio"]
      [.setPreset "studio" true, .dispose]).pmremDisposed = true := by
  refine ⟨?_, ?_, ?_⟩ <;> decide

/-- Witness for C4 on the same two-operation session. -/
theorem c4_dispose_leaves_cache_witness :
    (0 : ℕ) ∈ EnvironmentController.cacheIds (EnvironmentController.runOps ["studio"]
      [.setPreset "studio" true, .dispose]) ∧
    (0 : ℕ) ∉ (EnvironmentController.runOps ["studio"]
      [.setPreset "studio" true, .dispose]).disposed :=
  ⟨by decide, c4_dispose_leaves_cache.1 ["studio"] [.setPreset "studio" true, .dispose] 0
    (by decide)⟩

/-- C7: both rotation setters normalise `θ + 360` and `θ` to the same
stored angle in `[0, 360)` and produce identical resulting state;
reapplying `setRotation` with the same angle is idempotent; and
`LightsController.setRotation(360·k)` returns every directional light
(key, fill, rim) exactly to its immutable base position. -/
theorem c7_rotation_normalization :
    (∀ v : ℚ, 0 ≤ normalizeDeg v ∧ normalizeDeg v < 360) ∧
    (∀ (v : ℚ) (s : LightsController.State),
      LightsController.setRotation (v + 360) s = LightsController.setRotation v s) ∧
    (∀ (v : ℚ) (e : EnvironmentController.State),
      EnvironmentController.setRotation (v + 360) e =
        EnvironmentController.setRotation v e) ∧
    (∀ (v : ℚ) (s : LightsController.State),
      LightsController.setRotation v (LightsController.setRotation v s) =
        LightsController.setRotation v s) ∧
    (∀ (v : ℚ) (e : EnvironmentController.State),
      EnvironmentController.setRotation v (EnvironmentController.setRotation v e) =
        EnvironmentController.setRotation v e) ∧
    (∀ (k : ℤ) (s : LightsController.State),
      (LightsController.setRotation (360 * k) s).key = s.baseKey ∧
      (LightsController.setRotation (360 * k) s).fill = s.baseFill ∧
      (LightsController.setRotation (360 * k) s).rim = s.baseRim) := by
  refine ⟨normalizeDeg_bounds, ?_, ?_, ?_, ?_, ?_⟩
  · intro v s
    simp only [LightsController.setRotation, normalizeDeg_add_360]
  · intro v e
    simp only [EnvironmentController.setRotation, normalizeDeg_add_360]
  · intro v s
    rfl
  · intro v e
    by_cases h : e.rotation = normalizeDeg v
    · have h1 : EnvironmentController.setRotation v e = e := by
        simp only [EnvironmentController.setRotation, if_pos h]
      rw [h1]
      exact h1
    · have h2 : EnvironmentController.setRotation v e =
          EnvironmentController.applyEnvironment { e with rotation := normalizeDeg v } := by
        simp only [EnvironmentController.setRotation, if_neg h]
      rw [h2]
      have hrot : (EnvironmentController.applyEnvironment
          { e with rotation := normalizeDeg v }).rotation = normalizeDeg v :=
        EnvironmentController.applyEnvironment_rotation _
      simp only [EnvironmentController.setRotation, if_pos hrot]
  · intro k s
    have hn : normalizeDeg (360 * (k : ℚ)) = 0 := normalizeDeg_int_mul_360 k
    have hdeg : degToRad 0 = 0 := by simp [degToRad]
    have hb : ∀ b : Vec3, LightsController.rotatePos (Real.cos (degToRad 0))
        (Real.sin (degToRad 0)) b = b := by
      intro b
      rw [hdeg, Real.cos_zero, Real.sin_zero]
      refine Vec3.ext_xyz ?_ ?_ ?_ <;> simp [LightsController.rotatePos]
    refine ⟨?_, ?_, ?_⟩ <;>
      · show LightsController.rotatePos (Real.cos (degToRad (normalizeDeg (360 * (k : ℚ)))))
          (Real.sin (degToRad (normalizeDeg (360 * (k : ℚ))))) _ = _
        rw [hn]
        exact hb _
